import Mathlib

/-!
# ILI9881C MIPI-DSI panel driver (drivers/video/ilitek-ili9881c.c)

A shallow embedding of the driver's callbacks and of its command-table
executor, together with theorems about the order of the calls they make to
their collaborators (DSI transport, GPIO, regulator, delay) and about the
status codes they return.

Modelling conventions.

* The driver is sequential code whose only observable effects are calls to
  external collaborators.  Each such call is recorded, in program order, as an
  `Action` appended to `World.trace`.
* Status codes are C `int`s, modelled as `Int`; bytes (`u8`) are `Fin 256`.
  The driver never does arithmetic on either, it only compares and copies.
* What a collaborator returns is not decided by the driver.  A primitive that
  is called at most once per callback has its status as a field of `Host`;
  the transport write and the GPIO write, which are called repeatedly, take
  their statuses from the streams `World.write_ret` and `World.gpio_ret`,
  whose head is the status of the next call.  Every field is universally
  quantified in the theorems, so every behaviour of the collaborators is
  covered.
* Pointers are `Option Nat` (`none` is `NULL`).
* Console output (`printf`, `dev_err`) is not part of the trace.
-/

set_option linter.unusedVariables false

namespace Ili9881c

/-! ## Data model -/

/-- The C type `u8`. -/
abbrev u8 := Fin 256

/-- A call made by the driver to one of its external collaborators. The
transport writes carry the bytes handed to the transport (`buf[0 .. len)`);
the GPIO writes are all made on `&priv->reset`. -/
inductive Action where
  | device_get_supply_regulator
  | gpio_request_by_name
  | uclass_get_device_by_phandle
  | regulator_set_enable (enable : Bool)
  | dm_gpio_set_value (value : Bool)
  | mdelay (ms : Nat)
  | mipi_dsi_attach
  | mipi_dsi_dcs_write_buffer (payload : List u8)
  | mipi_dsi_dcs_exit_sleep_mode
  | mipi_dsi_dcs_set_display_on
deriving DecidableEq

/-- The part of the outside world that changes while the driver runs: the
calls made so far (oldest first) and the statuses that the coming transport
writes and GPIO writes will return (index 0 is the next call). -/
structure World where
  trace : List Action
  write_ret : Nat → Int
  gpio_ret : Nat → Int

/-- A GPIO descriptor (`struct gpio_desc`, declared in asm-generic/gpio.h);
`dev = none` is a descriptor that was never resolved. -/
structure gpio_desc where
  dev : Option Nat
  offset : Nat
  flags : Nat
deriving DecidableEq

/-- The driver's private data, `struct ili9881c_panel_priv`. -/
structure ili9881c_panel_priv where
  reg : Option Nat
  backlight : Option Nat
  reset : gpio_desc
deriving DecidableEq

/-- The platform data `struct mipi_dsi_panel_plat` (declared in mipi_dsi.h). -/
structure mipi_dsi_panel_plat where
  mode_flags : Nat
  lanes : Nat
  format : Nat
  device : Option Nat
deriving DecidableEq

/-- What the driver reaches through its `struct udevice *dev` argument:
`dev_get_priv(dev)` and `dev_get_platdata(dev)`. -/
structure udevice where
  priv : ili9881c_panel_priv
  plat : mipi_dsi_panel_plat
deriving DecidableEq

/-- The build configuration and the results of the collaborators that a
callback calls at most once. A lookup gives its status and the value it
leaves in its output parameter. -/
structure Host where
  CONFIG_DM_REGULATOR : Bool
  supply_regulator : Int × Option Nat
  reset_gpio : Int × gpio_desc
  backlight : Int × Option Nat
  regulator_ret : Int
  attach_ret : Int
  exit_sleep_ret : Int
  display_on_ret : Int

/-- One field of `struct display_timing` (`struct timing_entry`). -/
structure timing_entry where
  min : Nat
  typ : Nat
  max : Nat
deriving DecidableEq

/-- The fields of `struct display_timing` that the driver initialises. -/
structure display_timing where
  pixelclock : timing_entry
  hactive : timing_entry
  hfront_porch : timing_entry
  hback_porch : timing_entry
  hsync_len : timing_entry
  vactive : timing_entry
  vfront_porch : timing_entry
  vback_porch : timing_entry
  vsync_len : timing_entry
  flags : Nat
deriving DecidableEq

/-- One entry of the command table, `struct ili9881c_instr`. -/
structure ili9881c_instr where
  cmd : u8
  data : u8
deriving DecidableEq

/-! ## Header constants -/

/-- Modelled from the spec: the header constant `MIPI_DCS_EXIT_SLEEP_MODE`
(mipi_display.h, not part of this file), the DCS exit-sleep-mode command. -/
def MIPI_DCS_EXIT_SLEEP_MODE : u8 := 0x11

/-- Modelled from the spec: the header constant `MIPI_DCS_SET_DISPLAY_ON`
(mipi_display.h, not part of this file), the DCS display-on command. -/
def MIPI_DCS_SET_DISPLAY_ON : u8 := 0x29

/-- Modelled from the spec: the header constant `ENOENT` (errno.h), the
"not found" error number. -/
def ENOENT : Int := 2

/-- Modelled from the spec: the enumerator `MIPI_DSI_FMT_RGB888` (mipi_dsi.h),
the RGB888 pixel format, first value of `enum mipi_dsi_pixel_format`. -/
def MIPI_DSI_FMT_RGB888 : Nat := 0

/-- Modelled from the spec: the video-mode flag `MIPI_DSI_MODE_VIDEO`
(mipi_dsi.h), `BIT(0)`. -/
def MIPI_DSI_MODE_VIDEO : Nat := 1 <<< 0

/-- Modelled from the spec: the sync-pulse flag
`MIPI_DSI_MODE_VIDEO_SYNC_PULSE` (mipi_dsi.h), `BIT(2)`. -/
def MIPI_DSI_MODE_VIDEO_SYNC_PULSE : Nat := 1 <<< 2

/-- Modelled from the spec: the low-power-mode flag `MIPI_DSI_MODE_LPM`
(mipi_dsi.h), `BIT(11)`. -/
def MIPI_DSI_MODE_LPM : Nat := 1 <<< 11

/-! ## Collaborators -/

/-- Record a call. -/
def World.emit (w : World) (a : Action) : World :=
  { w with trace := w.trace ++ [a] }

/-- Transport primitive `mipi_dsi_dcs_write_buffer(device, buf, len)`: hands
the first `len` bytes of `buf` to the transport and returns its status. -/
def mipi_dsi_dcs_write_buffer (buf : List u8) (len : Nat) (w : World) : Int × World :=
  (w.write_ret 0,
   { trace := w.trace ++ [Action.mipi_dsi_dcs_write_buffer (buf.take len)],
     write_ret := fun n => w.write_ret (n + 1),
     gpio_ret := w.gpio_ret })

/-- GPIO primitive `dm_gpio_set_value(desc, value)`. -/
def dm_gpio_set_value (desc : gpio_desc) (value : Bool) (w : World) : Int × World :=
  (w.gpio_ret 0,
   { trace := w.trace ++ [Action.dm_gpio_set_value value],
     write_ret := w.write_ret,
     gpio_ret := fun n => w.gpio_ret (n + 1) })

/-- Delay primitive `mdelay(ms)`. -/
def mdelay (ms : Nat) (w : World) : World :=
  w.emit (Action.mdelay ms)

/-- Regulator primitive `regulator_set_enable(dev, enable)`. -/
def regulator_set_enable (host : Host) (enable : Bool) (w : World) : Int × World :=
  (host.regulator_ret, w.emit (Action.regulator_set_enable enable))

/-- Transport primitive `mipi_dsi_attach(device)`. -/
def mipi_dsi_attach (host : Host) (w : World) : Int × World :=
  (host.attach_ret, w.emit Action.mipi_dsi_attach)

/-- Transport primitive `mipi_dsi_dcs_exit_sleep_mode(device)`. -/
def mipi_dsi_dcs_exit_sleep_mode (host : Host) (w : World) : Int × World :=
  (host.exit_sleep_ret, w.emit Action.mipi_dsi_dcs_exit_sleep_mode)

/-- Transport primitive `mipi_dsi_dcs_set_display_on(device)`. -/
def mipi_dsi_dcs_set_display_on (host : Host) (w : World) : Int × World :=
  (host.display_on_ret, w.emit Action.mipi_dsi_dcs_set_display_on)

/-- Lookup `device_get_supply_regulator(dev, "power-supply", &priv->reg)`:
status, value left in `priv->reg`, world. -/
def device_get_supply_regulator (host : Host) (w : World) : Int × Option Nat × World :=
  (host.supply_regulator.1, host.supply_regulator.2,
   w.emit Action.device_get_supply_regulator)

/-- Lookup `gpio_request_by_name(dev, "reset-gpios", 0, &priv->reset, GPIOD_IS_OUT)`:
status, value left in `priv->reset`, world. -/
def gpio_request_by_name (host : Host) (w : World) : Int × gpio_desc × World :=
  (host.reset_gpio.1, host.reset_gpio.2, w.emit Action.gpio_request_by_name)

/-- Lookup `uclass_get_device_by_phandle(UCLASS_PANEL_BACKLIGHT, dev, "backlight",
&priv->backlight)`: status, value left in `priv->backlight`, world. -/
def uclass_get_device_by_phandle (host : Host) (w : World) : Int × Option Nat × World :=
  (host.backlight.1, host.backlight.2, w.emit Action.uclass_get_device_by_phandle)

/-! ## The driver -/

/-- The constant `default_timing`. -/
def default_timing : display_timing :=
  { pixelclock := { min := 54000000, typ := 54000000, max := 54000000 },
    hactive := { min := 720, typ := 720, max := 720 },
    hfront_porch := { min := 20, typ := 20, max := 20 },
    hback_porch := { min := 20, typ := 20, max := 20 },
    hsync_len := { min := 2, typ := 2, max := 2 },
    vactive := { min := 1280, typ := 1280, max := 1280 },
    vfront_porch := { min := 15, typ := 15, max := 15 },
    vback_porch := { min := 10, typ := 10, max := 10 },
    vsync_len := { min := 2, typ := 2, max := 2 },
    flags := 0 }

/-- The function `ili9881c_switch_page(dev, page)`. -/
def ili9881c_switch_page (dev : udevice) (page : u8) (w : World) : Int × World :=
  let buf : List u8 := [0xff, 0x98, 0x81, page]
  mipi_dsi_dcs_write_buffer buf 4 w

/-- The function `ili9881c_send_cmd_data(dev, cmd, data)`. -/
def ili9881c_send_cmd_data (dev : udevice) (cmd data : u8) (w : World) : Int × World :=
  let buf : List u8 := [cmd, data]
  mipi_dsi_dcs_write_buffer buf 2 w

/-- The shipped command table `ili9881c_init_data_2`. -/
def ili9881c_init_data_2 : List ili9881c_instr :=
  [{ cmd := 0xB2, data := 0x10 }]

/-- The `for` loop of `ili9881c_init_sequence` over the entries of the table
that are still to be sent. The Boolean is `true` when the loop ran to its end
and `false` when it left the function through the `return` on a negative
status. -/
def ili9881c_init_sequence_loop (dev : udevice) :
    List ili9881c_instr → World → Bool × World
  | [], w => (true, w)
  | instr :: rest, w =>
    let r := if instr.cmd = 0xFF then ili9881c_switch_page dev instr.data w
             else ili9881c_send_cmd_data dev instr.cmd instr.data w
    if r.1 < 0 then (false, r.2)
    else ili9881c_init_sequence_loop dev rest r.2

/-- The function `ili9881c_init_sequence(dev)`, with the command table as a
parameter (the source iterates the global `ili9881c_init_data_2`). It returns
`void`. -/
def ili9881c_init_sequence (table : List ili9881c_instr) (dev : udevice)
    (w : World) : World :=
  let buf : List u8 := List.replicate 128 0
  let r := ili9881c_init_sequence_loop dev table w
  if r.1 = false then r.2
  else
    let w := (ili9881c_switch_page dev 0 r.2).2
    let buf := buf.set 0 MIPI_DCS_EXIT_SLEEP_MODE
    let buf := buf.set 1 0
    let w := (mipi_dsi_dcs_write_buffer buf 2 w).2
    let w := mdelay 120 w
    let buf := buf.set 0 MIPI_DCS_SET_DISPLAY_ON
    (mipi_dsi_dcs_write_buffer buf 2 w).2

/-- The callback `ili9881c_panel_enable_backlight(dev)`. -/
def ili9881c_panel_enable_backlight (table : List ili9881c_instr) (host : Host)
    (dev : udevice) (w : World) : Int × World :=
  let r := mipi_dsi_attach host w
  if r.1 < 0 then (r.1, r.2)
  else
    let w := ili9881c_init_sequence table dev r.2
    let r := mipi_dsi_dcs_exit_sleep_mode host w
    if r.1 ≠ 0 then (r.1, r.2)
    else
      let w := mdelay 125 r.2
      let r := mipi_dsi_dcs_set_display_on host w
      if r.1 ≠ 0 then (r.1, r.2)
      else
        let w := mdelay 125 r.2
        (0, w)

/-- The callback `ili9881c_panel_get_display_timing(dev, timings)`: the
`memcpy` overwrites the whole of `*timings`. Result: status, `*timings`,
world. -/
def ili9881c_panel_get_display_timing (dev : udevice) (timings : display_timing)
    (w : World) : Int × display_timing × World :=
  (0, default_timing, w)

/-- Lines 159-166 of `ili9881c_panel_ofdata_to_platdata`: the backlight
lookup. -/
def ofdata_backlight (host : Host) (dev : udevice) (w : World) :
    Int × udevice × World :=
  let r := uclass_get_device_by_phandle host w
  let dev := { dev with priv := { dev.priv with backlight := r.2.1 } }
  if r.1 ≠ 0 then (r.1, dev, r.2.2)
  else (0, dev, r.2.2)

/-- Lines 151-166 of `ili9881c_panel_ofdata_to_platdata`: the reset-GPIO
lookup and what follows it. -/
def ofdata_reset_gpio (host : Host) (dev : udevice) (w : World) :
    Int × udevice × World :=
  let r := gpio_request_by_name host w
  let dev := { dev with priv := { dev.priv with reset := r.2.1 } }
  if r.1 ≠ 0 then
    if r.1 ≠ -ENOENT then (r.1, dev, r.2.2)
    else ofdata_backlight host dev r.2.2
  else ofdata_backlight host dev r.2.2

/-- The callback `ili9881c_panel_ofdata_to_platdata(dev)`. -/
def ili9881c_panel_ofdata_to_platdata (host : Host) (dev : udevice) (w : World) :
    Int × udevice × World :=
  if host.CONFIG_DM_REGULATOR = true then
    let r := device_get_supply_regulator host w
    let dev := { dev with priv := { dev.priv with reg := r.2.1 } }
    if r.1 ≠ 0 ∧ r.1 ≠ -ENOENT then (r.1, dev, r.2.2)
    else ofdata_reset_gpio host dev r.2.2
  else ofdata_reset_gpio host dev w

/-- The `for (ii = 0; ii < 3; ii++)` loop of `ili9881c_panel_probe`, by the
number of iterations still to run (the body does not read `ii`). -/
def probe_reset_loop (priv : ili9881c_panel_priv) : Nat → World → World
  | 0, w => w
  | n + 1, w =>
    let w := (dm_gpio_set_value priv.reset false w).2
    let w := mdelay 20 w
    let w := (dm_gpio_set_value priv.reset true w).2
    let w := mdelay 100 w
    probe_reset_loop priv n w

/-- Lines 182-201 of `ili9881c_panel_probe`: the reset pulses, the settle
delay and the transport configuration. -/
def probe_reset_and_configure (dev : udevice) (w : World) : Int × udevice × World :=
  let w := probe_reset_loop dev.priv 3 w
  let w := mdelay 1000 w
  let plat := { dev.plat with lanes := 2 }
  let plat := { plat with format := MIPI_DSI_FMT_RGB888 }
  let plat := { plat with
    mode_flags := MIPI_DSI_MODE_VIDEO ||| MIPI_DSI_MODE_VIDEO_SYNC_PULSE ||| MIPI_DSI_MODE_LPM }
  (0, { dev with plat := plat }, w)

/-- The callback `ili9881c_panel_probe(dev)`. -/
def ili9881c_panel_probe (host : Host) (dev : udevice) (w : World) :
    Int × udevice × World :=
  if host.CONFIG_DM_REGULATOR = true ∧ dev.priv.reg ≠ none then
    let r := regulator_set_enable host true w
    if r.1 ≠ 0 then (r.1, dev, r.2)
    else probe_reset_and_configure dev r.2
  else probe_reset_and_configure dev w

/-! ## The specification's words -/

/-- The payload that the specification gives for a table entry: four bytes
for the page-switch command byte 0xFF, two bytes otherwise. -/
def spec_payload (e : ili9881c_instr) : List u8 :=
  if e.cmd = 0xFF then [0xFF, 0x98, 0x81, e.data] else [e.cmd, e.data]

/-- The write that the specification gives for a table entry. -/
def spec_write (e : ili9881c_instr) : Action :=
  Action.mipi_dsi_dcs_write_buffer (spec_payload e)

/-- The reset sequence in the specification's words: three times (reset line
low, 20 ms, reset line high, 100 ms), then one delay of 1000 ms. -/
def spec_reset_sequence : List Action :=
  (List.replicate 3
    [Action.dm_gpio_set_value false, Action.mdelay 20,
     Action.dm_gpio_set_value true, Action.mdelay 100]).flatten ++ [Action.mdelay 1000]

/-- The length of a delay action, 0 for any other action. -/
def Action.delay_ms : Action → Nat
  | Action.mdelay ms => ms
  | _ => 0

/-- Whether an action is a GPIO write. -/
def Action.is_gpio_write : Action → Bool
  | Action.dm_gpio_set_value _ => true
  | _ => false

/-- Whether an action is a delay. -/
def Action.is_delay : Action → Bool
  | Action.mdelay _ => true
  | _ => false

/-! ## Concrete inputs -/

/-- A world in which nothing has happened yet and every transport write and
every GPIO write returns the given status. -/
def World.const (write_status gpio_status : Int) : World :=
  { trace := [], write_ret := fun _ => write_status, gpio_ret := fun _ => gpio_status }

/-- A device with nothing resolved and zeroed platform data. -/
def udevice.zero : udevice :=
  { priv := { reg := none, backlight := none, reset := { dev := none, offset := 0, flags := 0 } },
    plat := { mode_flags := 0, lanes := 0, format := 0, device := none } }

/-- A host whose collaborators all succeed, with regulator support enabled. -/
def Host.ok : Host :=
  { CONFIG_DM_REGULATOR := true,
    supply_regulator := (0, some 1),
    reset_gpio := (0, { dev := some 2, offset := 0, flags := 0 }),
    backlight := (0, some 3),
    regulator_ret := 0,
    attach_ret := 0,
    exit_sleep_ret := 0,
    display_on_ret := 0 }

/-- A table with a page switch followed by an ordinary command. -/
def two_entry_table : List ili9881c_instr :=
  [{ cmd := 0xFF, data := 0x03 }, { cmd := 0xB2, data := 0x10 }]

/-- A world in which nothing has happened yet, the first transport write
succeeds and every later one fails. -/
def World.second_write_fails : World :=
  { trace := [], write_ret := fun n => if n = 0 then 0 else -5, gpio_ret := fun _ => 0 }

/-- A host whose attach fails with -19. -/
def Host.attach_fails : Host := { Host.ok with attach_ret := -19 }

/-- A host whose exit-sleep primitive fails with -5. -/
def Host.exit_sleep_fails : Host := { Host.ok with exit_sleep_ret := -5 }

/-- A host whose display-on primitive fails with -5. -/
def Host.display_on_fails : Host := { Host.ok with display_on_ret := -5 }

/-- A host like `Host.ok` with regulator support compiled out. -/
def Host.ok2 : Host := { Host.ok with CONFIG_DM_REGULATOR := false }

/-- A device whose reset descriptor was never resolved and whose regulator was. -/
def udevice.with_regulator : udevice :=
  { udevice.zero with priv := { udevice.zero.priv with reg := some 7 } }

/-- A host whose regulator refuses to be enabled, with status -22. -/
def Host.regulator_fails : Host := { Host.ok with regulator_ret := -22 }

/-- A host with no regulator and no reset GPIO in the hardware description
(both lookups return -ENOENT) and a valid backlight. -/
def Host.backlight_only : Host :=
  { Host.ok with
    supply_regulator := (-2, none),
    reset_gpio := (-2, { dev := none, offset := 0, flags := 0 }) }

/-! # Theorems -/

/-! ## The command-table executor -/

/-- One iteration of the loop makes one transport write, with the payload
the specification gives for the entry, and gets the next pending status. -/
theorem init_step_eq (dev : udevice) (instr : ili9881c_instr) (w : World) :
    (if instr.cmd = 0xFF then ili9881c_switch_page dev instr.data w
      else ili9881c_send_cmd_data dev instr.cmd instr.data w)
    = (w.write_ret 0,
       { trace := w.trace ++ [spec_write instr],
         write_ret := fun n => w.write_ret (n + 1),
         gpio_ret := w.gpio_ret }) := by
  by_cases h : instr.cmd = 0xFF
  · simp [h, ili9881c_switch_page, mipi_dsi_dcs_write_buffer, spec_write, spec_payload]
  · simp [h, ili9881c_send_cmd_data, mipi_dsi_dcs_write_buffer, spec_write, spec_payload]

/-- The loop on a non-empty table, one iteration unfolded. -/
theorem init_loop_cons (dev : udevice) (instr : ili9881c_instr)
    (rest : List ili9881c_instr) (w : World) :
    ili9881c_init_sequence_loop dev (instr :: rest) w
    = if w.write_ret 0 < 0 then
        (false, { trace := w.trace ++ [spec_write instr],
                  write_ret := fun n => w.write_ret (n + 1),
                  gpio_ret := w.gpio_ret })
      else ili9881c_init_sequence_loop dev rest
        { trace := w.trace ++ [spec_write instr],
          write_ret := fun n => w.write_ret (n + 1),
          gpio_ret := w.gpio_ret } := by
  simp only [ili9881c_init_sequence_loop, init_step_eq]

/-- When the writes for all entries succeed the loop runs to its end, having
written one payload per entry in table order. -/
theorem init_loop_all_ok (dev : udevice) (table : List ili9881c_instr) :
    ∀ w : World, (∀ n, n < table.length → 0 ≤ w.write_ret n) →
      ili9881c_init_sequence_loop dev table w
      = (true, { trace := w.trace ++ table.map spec_write,
                 write_ret := fun n => w.write_ret (n + table.length),
                 gpio_ret := w.gpio_ret }) := by
  induction table with
  | nil => intro w _; simp [ili9881c_init_sequence_loop]
  | cons instr rest ih =>
    intro w h
    have h0 : ¬ w.write_ret 0 < 0 := not_lt.mpr (h 0 (by simp))
    rw [init_loop_cons, if_neg h0, ih]
    · simp only [List.append_assoc, List.singleton_append, List.map_cons, List.length_cons]
      congr 2
    · intro n hn
      exact h (n + 1) (by simpa using hn)

/-- When the write for entry `k` is the first to fail the loop leaves the
function after the writes for entries `0..k`. -/
theorem init_loop_first_failure (dev : udevice) (table : List ili9881c_instr) :
    ∀ (k : Nat) (w : World), k < table.length →
      (∀ j, j < k → 0 ≤ w.write_ret j) → w.write_ret k < 0 →
      ili9881c_init_sequence_loop dev table w
      = (false, { trace := w.trace ++ (table.take (k + 1)).map spec_write,
                  write_ret := fun n => w.write_ret (n + (k + 1)),
                  gpio_ret := w.gpio_ret }) := by
  induction table with
  | nil => intro k w hk; simp at hk
  | cons instr rest ih =>
    intro k w hk hok hfail
    cases k with
    | zero =>
      rw [init_loop_cons, if_pos hfail]
      simp
    | succ k =>
      have h0 : ¬ w.write_ret 0 < 0 := not_lt.mpr (hok 0 (by omega))
      rw [init_loop_cons, if_neg h0, ih k]
      · simp only [List.append_assoc, List.singleton_append, List.take_succ_cons, List.map_cons]
        congr 2
      · simpa using hk
      · intro j hj
        exact hok (j + 1) (by omega)
      · exact hfail

/-- The two bytes of `buf` handed to the transport by the exit-sleep write. -/
theorem init_buf_exit_sleep :
    (((List.replicate 128 (0 : u8)).set 0 MIPI_DCS_EXIT_SLEEP_MODE).set 1 0).take 2
      = [0x11, 0x00] := by decide

/-- The two bytes of `buf` handed to the transport by the display-on write:
`buf[1]` is still the 0 stored before the exit-sleep write. -/
theorem init_buf_display_on :
    ((((List.replicate 128 (0 : u8)).set 0 MIPI_DCS_EXIT_SLEEP_MODE).set 1 0).set 0
      MIPI_DCS_SET_DISPLAY_ON).take 2 = [0x29, 0x00] := by decide

/-- The whole executor when the writes for all entries succeed: the table
writes, then the fixed tail, whose own statuses are not looked at. -/
theorem init_sequence_all_ok (table : List ili9881c_instr) (dev : udevice) (w : World)
    (h : ∀ n, n < table.length → 0 ≤ w.write_ret n) :
    ili9881c_init_sequence table dev w
    = { trace := w.trace ++ table.map spec_write ++
          [Action.mipi_dsi_dcs_write_buffer [0xFF, 0x98, 0x81, 0x00],
           Action.mipi_dsi_dcs_write_buffer [0x11, 0x00],
           Action.mdelay 120,
           Action.mipi_dsi_dcs_write_buffer [0x29, 0x00]],
        write_ret := fun n => w.write_ret (n + table.length + 3),
        gpio_ret := w.gpio_ret } := by
  unfold ili9881c_init_sequence
  rw [init_loop_all_ok dev table w h]
  simp [ili9881c_switch_page, mipi_dsi_dcs_write_buffer, mdelay, World.emit,
    init_buf_exit_sleep, init_buf_display_on]
  refine ⟨⟨rfl, rfl⟩, ?_⟩
  funext n
  congr 1
  omega

/-- The whole executor when the write for entry `k` is the first to fail. -/
theorem init_sequence_first_failure (table : List ili9881c_instr) (dev : udevice)
    (w : World) (k : Nat) (hk : k < table.length)
    (hok : ∀ j, j < k → 0 ≤ w.write_ret j) (hfail : w.write_ret k < 0) :
    ili9881c_init_sequence table dev w
    = { trace := w.trace ++ (table.take (k + 1)).map spec_write,
        write_ret := fun n => w.write_ret (n + (k + 1)),
        gpio_ret := w.gpio_ret } := by
  unfold ili9881c_init_sequence
  rw [init_loop_first_failure dev table k w hk hok hfail]
  simp

/-- C1. When the transport writes for all table entries succeed, the loop of
`ili9881c_init_sequence` runs to its end and the writes it makes are, one per
entry and in table order, the 4 bytes 0xFF 0x98 0x81 data for an entry whose
command byte is 0xFF and the 2 bytes cmd data for any other entry; these are
the first calls of the whole function. -/
theorem init_sequence_writes_table_in_order (table : List ili9881c_instr)
    (dev : udevice) (w : World)
    (h : ∀ n, n < table.length → 0 ≤ w.write_ret n) :
    (ili9881c_init_sequence_loop dev table w).1 = true ∧
    (ili9881c_init_sequence_loop dev table w).2.trace
      = w.trace ++ table.map (fun e => Action.mipi_dsi_dcs_write_buffer
          (if e.cmd = 0xFF then [0xFF, 0x98, 0x81, e.data] else [e.cmd, e.data])) ∧
    ∃ tail, (ili9881c_init_sequence table dev w).trace
      = (ili9881c_init_sequence_loop dev table w).2.trace ++ tail := by
  rw [init_sequence_all_ok table dev w h, init_loop_all_ok dev table w h]
  exact ⟨rfl, rfl, _, rfl⟩

/-- A run on a two-entry table (a page switch, then an ordinary command)
with a transport that accepts every write. -/
theorem init_sequence_writes_table_in_order_witness :
    (∀ n, n < two_entry_table.length → 0 ≤ (World.const 0 0).write_ret n) ∧
    ((ili9881c_init_sequence_loop udevice.zero two_entry_table (World.const 0 0)).1 = true ∧
    (ili9881c_init_sequence_loop udevice.zero two_entry_table (World.const 0 0)).2.trace
      = (World.const 0 0).trace ++ two_entry_table.map (fun e => Action.mipi_dsi_dcs_write_buffer
          (if e.cmd = 0xFF then [0xFF, 0x98, 0x81, e.data] else [e.cmd, e.data])) ∧
    ∃ tail, (ili9881c_init_sequence two_entry_table udevice.zero (World.const 0 0)).trace
      = (ili9881c_init_sequence_loop udevice.zero two_entry_table
          (World.const 0 0)).2.trace ++ tail) :=
  ⟨by decide, init_sequence_writes_table_in_order two_entry_table udevice.zero
    (World.const 0 0) (by decide)⟩

/-- C2. When the write for entry `k` is the first to fail, the calls made by
`ili9881c_init_sequence` are exactly the `k + 1` writes for entries `0..k`, in
table order: nothing for a later entry, no second write for entry `k`, and
none of the page-0 switch, exit-sleep write, 120 ms delay and display-on
write. -/
theorem init_sequence_stops_at_first_failure (table : List ili9881c_instr)
    (dev : udevice) (w : World) (k : Nat) (hk : k < table.length)
    (hok : ∀ j, j < k → 0 ≤ w.write_ret j) (hfail : w.write_ret k < 0) :
    (ili9881c_init_sequence table dev w).trace
      = w.trace ++ (table.take (k + 1)).map (fun e => Action.mipi_dsi_dcs_write_buffer
          (if e.cmd = 0xFF then [0xFF, 0x98, 0x81, e.data] else [e.cmd, e.data])) ∧
    ((table.take (k + 1)).map (fun e => Action.mipi_dsi_dcs_write_buffer
          (if e.cmd = 0xFF then [0xFF, 0x98, 0x81, e.data] else [e.cmd, e.data]))).length
      = k + 1 := by
  rw [init_sequence_first_failure table dev w k hk hok hfail]
  refine ⟨rfl, ?_⟩
  simp only [List.length_map, List.length_take]
  omega

/-- A run on a two-entry table in which the second write is the first to
fail: two writes and nothing else. -/
theorem init_sequence_stops_at_first_failure_witness :
    (1 < two_entry_table.length ∧
     (∀ j, j < 1 → 0 ≤ World.second_write_fails.write_ret j) ∧
     World.second_write_fails.write_ret 1 < 0) ∧
    (ili9881c_init_sequence two_entry_table udevice.zero World.second_write_fails).trace
      = [Action.mipi_dsi_dcs_write_buffer [0xFF, 0x98, 0x81, 0x03],
         Action.mipi_dsi_dcs_write_buffer [0xB2, 0x10]] :=
  ⟨by decide,
   (init_sequence_stops_at_first_failure two_entry_table udevice.zero
      World.second_write_fails 1 (by decide) (by decide) (by decide)).1⟩

/-- C3. When the writes for all table entries succeed, `ili9881c_init_sequence`
follows the last table write with exactly: the page-switch write
0xFF 0x98 0x81 0x00, the exit-sleep write 0x11 0x00, a 120 ms delay and the
display-on write 0x29 0x00, whatever the statuses of these last writes. For
the shipped table the calls are 0xB2 0x10, 0xFF 0x98 0x81 0x00, 0x11 0x00,
delay 120, 0x29 0x00. -/
theorem init_sequence_tail_after_table (table : List ili9881c_instr)
    (dev : udevice) (w : World)
    (h : ∀ n, n < table.length → 0 ≤ w.write_ret n) :
    ((ili9881c_init_sequence table dev w).trace
      = w.trace ++ table.map (fun e => Action.mipi_dsi_dcs_write_buffer
          (if e.cmd = 0xFF then [0xFF, 0x98, 0x81, e.data] else [e.cmd, e.data])) ++
        [Action.mipi_dsi_dcs_write_buffer [0xFF, 0x98, 0x81, 0x00],
         Action.mipi_dsi_dcs_write_buffer [MIPI_DCS_EXIT_SLEEP_MODE, 0x00],
         Action.mdelay 120,
         Action.mipi_dsi_dcs_write_buffer [MIPI_DCS_SET_DISPLAY_ON, 0x00]]) ∧
    MIPI_DCS_EXIT_SLEEP_MODE = 0x11 ∧ MIPI_DCS_SET_DISPLAY_ON = 0x29 ∧
    (table = ili9881c_init_data_2 →
      (ili9881c_init_sequence table dev w).trace
        = w.trace ++
          [Action.mipi_dsi_dcs_write_buffer [0xB2, 0x10],
           Action.mipi_dsi_dcs_write_buffer [0xFF, 0x98, 0x81, 0x00],
           Action.mipi_dsi_dcs_write_buffer [0x11, 0x00],
           Action.mdelay 120,
           Action.mipi_dsi_dcs_write_buffer [0x29, 0x00]]) := by
  rw [init_sequence_all_ok table dev w h]
  refine ⟨rfl, rfl, rfl, ?_⟩
  intro ht
  subst ht
  simp [ili9881c_init_data_2, spec_write, spec_payload]

/-- A run on the shipped table with a transport that accepts every write. -/
theorem init_sequence_tail_after_table_witness :
    (∀ n, n < ili9881c_init_data_2.length → 0 ≤ (World.const 0 (-1)).write_ret n) ∧
    (ili9881c_init_sequence ili9881c_init_data_2 udevice.zero (World.const 0 (-1))).trace
      = (World.const 0 (-1)).trace ++
          [Action.mipi_dsi_dcs_write_buffer [0xB2, 0x10],
           Action.mipi_dsi_dcs_write_buffer [0xFF, 0x98, 0x81, 0x00],
           Action.mipi_dsi_dcs_write_buffer [0x11, 0x00],
           Action.mdelay 120,
           Action.mipi_dsi_dcs_write_buffer [0x29, 0x00]] :=
  ⟨by decide,
   (init_sequence_tail_after_table ili9881c_init_data_2 udevice.zero (World.const 0 (-1))
      (by decide)).2.2.2 rfl⟩

/-! ## The backlight-enable callback -/

/-- Whatever the transport answers, the loop only adds transport writes to
the trace. -/
theorem init_loop_trace_shape (dev : udevice) (table : List ili9881c_instr) :
    ∀ w : World, ∃ xs : List Action,
      (ili9881c_init_sequence_loop dev table w).2.trace = w.trace ++ xs ∧
      ∀ a ∈ xs, ∃ p, a = Action.mipi_dsi_dcs_write_buffer p := by
  induction table with
  | nil => intro w; exact ⟨[], by simp [ili9881c_init_sequence_loop], by simp⟩
  | cons instr rest ih =>
    intro w
    rw [init_loop_cons]
    by_cases h0 : w.write_ret 0 < 0
    · rw [if_pos h0]
      refine ⟨[spec_write instr], rfl, ?_⟩
      intro a ha
      exact ⟨spec_payload instr, by simpa [spec_write] using ha⟩
    · rw [if_neg h0]
      obtain ⟨xs, hxs, hall⟩ := ih
        { trace := w.trace ++ [spec_write instr],
          write_ret := fun n => w.write_ret (n + 1),
          gpio_ret := w.gpio_ret }
      refine ⟨spec_write instr :: xs, by simpa using hxs, ?_⟩
      intro a ha
      rcases List.mem_cons.mp ha with rfl | ha
      · exact ⟨spec_payload instr, rfl⟩
      · exact hall a ha

/-- Whatever the transport answers, the executor only adds transport writes
and the 120 ms delay to the trace. -/
theorem init_sequence_trace_shape (table : List ili9881c_instr) (dev : udevice)
    (w : World) : ∃ xs : List Action,
      (ili9881c_init_sequence table dev w).trace = w.trace ++ xs ∧
      ∀ a ∈ xs, (∃ p, a = Action.mipi_dsi_dcs_write_buffer p) ∨ a = Action.mdelay 120 := by
  obtain ⟨xs, hxs, hall⟩ := init_loop_trace_shape dev table w
  unfold ili9881c_init_sequence
  by_cases hb : (ili9881c_init_sequence_loop dev table w).1 = false
  · refine ⟨xs, by simp [hb, hxs], fun a ha => Or.inl (hall a ha)⟩
  · refine ⟨xs ++ [Action.mipi_dsi_dcs_write_buffer [0xFF, 0x98, 0x81, 0x00],
        Action.mipi_dsi_dcs_write_buffer [0x11, 0x00], Action.mdelay 120,
        Action.mipi_dsi_dcs_write_buffer [0x29, 0x00]], ?_, ?_⟩
    · simp [hb, hxs, ili9881c_switch_page, mipi_dsi_dcs_write_buffer, mdelay, World.emit,
        init_buf_exit_sleep, init_buf_display_on]
      exact ⟨rfl, rfl⟩
    · intro a ha
      rcases List.mem_append.mp ha with ha | ha
      · exact Or.inl (hall a ha)
      · simp only [List.mem_cons, List.mem_singleton, List.not_mem_nil, or_false] at ha
        rcases ha with rfl | rfl | rfl | rfl
        · exact Or.inl ⟨_, rfl⟩
        · exact Or.inl ⟨_, rfl⟩
        · exact Or.inr rfl
        · exact Or.inl ⟨_, rfl⟩

/-- The callback unfolded: its result in terms of the three checked statuses
and of the world left by the executor. -/
theorem enable_backlight_eq (table : List ili9881c_instr) (host : Host)
    (dev : udevice) (w : World) :
    ili9881c_panel_enable_backlight table host dev w
    = if host.attach_ret < 0 then (host.attach_ret, w.emit Action.mipi_dsi_attach)
      else if host.exit_sleep_ret ≠ 0 then
        (host.exit_sleep_ret,
          (ili9881c_init_sequence table dev (w.emit Action.mipi_dsi_attach)).emit
            Action.mipi_dsi_dcs_exit_sleep_mode)
      else if host.display_on_ret ≠ 0 then
        (host.display_on_ret,
          (((ili9881c_init_sequence table dev (w.emit Action.mipi_dsi_attach)).emit
            Action.mipi_dsi_dcs_exit_sleep_mode).emit (Action.mdelay 125)).emit
            Action.mipi_dsi_dcs_set_display_on)
      else
        (0,
          ((((ili9881c_init_sequence table dev (w.emit Action.mipi_dsi_attach)).emit
            Action.mipi_dsi_dcs_exit_sleep_mode).emit (Action.mdelay 125)).emit
            Action.mipi_dsi_dcs_set_display_on).emit (Action.mdelay 125)) := by
  simp only [ili9881c_panel_enable_backlight, mipi_dsi_attach, mipi_dsi_dcs_exit_sleep_mode,
    mipi_dsi_dcs_set_display_on, mdelay]

/-- C4. `ili9881c_panel_enable_backlight` stops at the first of its three
checked steps that fails. With `exec` the calls made by the executor (transport
writes and its 120 ms delay only): if attach returns a negative status the
callback returns it and attach is its only call; if the exit-sleep primitive
returns a non-zero status the callback returns it and that primitive is its
last call (no 125 ms delay, no display-on primitive); if the display-on
primitive returns a non-zero status the callback returns it and that primitive
is its last call (no final 125 ms delay). -/
theorem enable_backlight_stops_at_failing_step (table : List ili9881c_instr)
    (host : Host) (dev : udevice) (w : World) :
    ∃ exec : List Action,
      (ili9881c_init_sequence table dev (w.emit Action.mipi_dsi_attach)).trace
        = w.trace ++ [Action.mipi_dsi_attach] ++ exec ∧
      (∀ a ∈ exec, (∃ p, a = Action.mipi_dsi_dcs_write_buffer p) ∨ a = Action.mdelay 120) ∧
      (host.attach_ret < 0 →
        (ili9881c_panel_enable_backlight table host dev w).1 = host.attach_ret ∧
        (ili9881c_panel_enable_backlight table host dev w).2.trace
          = w.trace ++ [Action.mipi_dsi_attach]) ∧
      (0 ≤ host.attach_ret → host.exit_sleep_ret ≠ 0 →
        (ili9881c_panel_enable_backlight table host dev w).1 = host.exit_sleep_ret ∧
        (ili9881c_panel_enable_backlight table host dev w).2.trace
          = w.trace ++ [Action.mipi_dsi_attach] ++ exec ++
            [Action.mipi_dsi_dcs_exit_sleep_mode]) ∧
      (0 ≤ host.attach_ret → host.exit_sleep_ret = 0 → host.display_on_ret ≠ 0 →
        (ili9881c_panel_enable_backlight table host dev w).1 = host.display_on_ret ∧
        (ili9881c_panel_enable_backlight table host dev w).2.trace
          = w.trace ++ [Action.mipi_dsi_attach] ++ exec ++
            [Action.mipi_dsi_dcs_exit_sleep_mode, Action.mdelay 125,
             Action.mipi_dsi_dcs_set_display_on]) := by
  obtain ⟨exec, hexec, hall⟩ :=
    init_sequence_trace_shape table dev (w.emit Action.mipi_dsi_attach)
  have hexec2 : (ili9881c_init_sequence table dev (w.emit Action.mipi_dsi_attach)).trace
      = w.trace ++ [Action.mipi_dsi_attach] ++ exec := by
    simpa [World.emit] using hexec
  refine ⟨exec, hexec2, hall, ?_, ?_, ?_⟩
  · intro ha
    rw [enable_backlight_eq, if_pos ha]
    exact ⟨rfl, rfl⟩
  · intro ha hs
    rw [enable_backlight_eq, if_neg (not_lt.mpr ha), if_pos hs]
    refine ⟨rfl, ?_⟩
    show (ili9881c_init_sequence table dev (w.emit Action.mipi_dsi_attach)).trace ++ [_] = _
    rw [hexec2]
  · intro ha hs hd
    rw [enable_backlight_eq, if_neg (not_lt.mpr ha), if_neg (not_not.mpr hs), if_pos hd]
    refine ⟨rfl, ?_⟩
    show (ili9881c_init_sequence table dev (w.emit Action.mipi_dsi_attach)).trace ++ [_]
      ++ [_] ++ [_] = _
    rw [hexec2]
    simp

/-- Three runs on the shipped table, one for each checked step failing. -/
theorem enable_backlight_stops_at_failing_step_witness :
    ((ili9881c_panel_enable_backlight ili9881c_init_data_2 Host.attach_fails udevice.zero
        (World.const 0 0)).1 = -19 ∧
     (ili9881c_panel_enable_backlight ili9881c_init_data_2 Host.attach_fails udevice.zero
        (World.const 0 0)).2.trace = [Action.mipi_dsi_attach]) ∧
    (Host.exit_sleep_fails.attach_ret = 0 ∧ Host.exit_sleep_fails.exit_sleep_ret = -5 ∧
     (ili9881c_panel_enable_backlight ili9881c_init_data_2 Host.exit_sleep_fails udevice.zero
        (World.const 0 0)).1 = -5) ∧
    (Host.display_on_fails.attach_ret = 0 ∧ Host.display_on_fails.exit_sleep_ret = 0 ∧
     Host.display_on_fails.display_on_ret = -5 ∧
     (ili9881c_panel_enable_backlight ili9881c_init_data_2 Host.display_on_fails udevice.zero
        (World.const 0 0)).1 = -5) :=
  ⟨match enable_backlight_stops_at_failing_step ili9881c_init_data_2 Host.attach_fails
      udevice.zero (World.const 0 0) with
    | ⟨_, _, _, h, _, _⟩ => h (by decide),
   ⟨rfl, rfl,
   match enable_backlight_stops_at_failing_step ili9881c_init_data_2 Host.exit_sleep_fails
      udevice.zero (World.const 0 0) with
    | ⟨_, _, _, _, h, _⟩ => (h (by decide) (by decide)).1⟩,
   rfl, rfl, rfl,
   match enable_backlight_stops_at_failing_step ili9881c_init_data_2 Host.display_on_fails
      udevice.zero (World.const 0 0) with
    | ⟨_, _, _, _, _, h⟩ => (h (by decide) (by decide) (by decide)).1⟩

/-- C5, as stated, fails on the shipped table: with attach, exit-sleep and
display-on all returning 0 and the transport returning -5 to every write, the
callback returns 0 although the executor issued the write 0xB2 0x10, whose
status was -5 (after which the executor gave up). -/
theorem enable_backlight_zero_after_failed_write :
    (ili9881c_panel_enable_backlight ili9881c_init_data_2 Host.ok udevice.zero
        (World.const (-5) 0)).1 = 0 ∧
    (ili9881c_panel_enable_backlight ili9881c_init_data_2 Host.ok udevice.zero
        (World.const (-5) 0)).2.trace
      = [Action.mipi_dsi_attach,
         Action.mipi_dsi_dcs_write_buffer [0xB2, 0x10],
         Action.mipi_dsi_dcs_exit_sleep_mode,
         Action.mdelay 125,
         Action.mipi_dsi_dcs_set_display_on,
         Action.mdelay 125] ∧
    (World.const (-5) 0).write_ret 0 < 0 := by
  decide

/-- C5, amended. If `ili9881c_panel_enable_backlight` returns 0 then attach
returned a non-negative status and the exit-sleep and display-on primitives
both returned 0. -/
theorem enable_backlight_zero_only_if_checked_steps_ok (table : List ili9881c_instr)
    (host : Host) (dev : udevice) (w : World)
    (h : (ili9881c_panel_enable_backlight table host dev w).1 = 0) :
    0 ≤ host.attach_ret ∧ host.exit_sleep_ret = 0 ∧ host.display_on_ret = 0 := by
  rw [enable_backlight_eq] at h
  by_cases ha : host.attach_ret < 0
  · rw [if_pos ha] at h
    simp only at h
    omega
  · rw [if_neg ha] at h
    by_cases hs : host.exit_sleep_ret ≠ 0
    · rw [if_pos hs] at h
      exact absurd h hs
    · rw [if_neg hs] at h
      by_cases hd : host.display_on_ret ≠ 0
      · rw [if_pos hd] at h
        exact absurd h hd
      · exact ⟨not_lt.mp ha, not_not.mp hs, not_not.mp hd⟩

/-- A run on the shipped table in which every collaborator succeeds. -/
theorem enable_backlight_zero_only_if_checked_steps_ok_witness :
    (ili9881c_panel_enable_backlight ili9881c_init_data_2 Host.ok udevice.zero
        (World.const 0 0)).1 = 0 ∧
    (0 ≤ Host.ok.attach_ret ∧ Host.ok.exit_sleep_ret = 0 ∧ Host.ok.display_on_ret = 0) :=
  ⟨by decide,
   enable_backlight_zero_only_if_checked_steps_ok ili9881c_init_data_2 Host.ok udevice.zero
     (World.const 0 0) (by decide)⟩

/-- C10. The statuses of the executor's transport writes do not reach the
caller: two runs of `ili9881c_panel_enable_backlight` on the same table whose
attach, exit-sleep and display-on statuses agree return the same value,
whatever the two transports answer to the writes. And when attach succeeds the
callback goes on after the executor, whether or not it gave up (`exec` are the
calls the executor made), with the exit-sleep primitive, then, that primitive
having returned 0, the 125 ms delay and the display-on primitive, then, that
one having returned 0, the last 125 ms delay; it returns 0 when both
primitives returned 0. -/
theorem enable_backlight_ignores_executor_result (table : List ili9881c_instr)
    (host host2 : Host) (dev dev2 : udevice) (w w2 : World)
    (hattach : host.attach_ret = host2.attach_ret)
    (hsleep : host.exit_sleep_ret = host2.exit_sleep_ret)
    (hdisplay : host.display_on_ret = host2.display_on_ret) :
    (ili9881c_panel_enable_backlight table host dev w).1
      = (ili9881c_panel_enable_backlight table host2 dev2 w2).1 ∧
    (0 ≤ host.attach_ret →
      ∃ exec : List Action,
        (ili9881c_init_sequence table dev (w.emit Action.mipi_dsi_attach)).trace
          = w.trace ++ [Action.mipi_dsi_attach] ++ exec ∧
        (ili9881c_panel_enable_backlight table host dev w).2.trace
          = w.trace ++ [Action.mipi_dsi_attach] ++ exec ++
            [Action.mipi_dsi_dcs_exit_sleep_mode] ++
            (if host.exit_sleep_ret = 0 then
              [Action.mdelay 125, Action.mipi_dsi_dcs_set_display_on] ++
              (if host.display_on_ret = 0 then [Action.mdelay 125] else [])
             else []) ∧
        (host.exit_sleep_ret = 0 → host.display_on_ret = 0 →
          (ili9881c_panel_enable_backlight table host dev w).1 = 0 ∧
          (ili9881c_panel_enable_backlight table host dev w).2.trace
            = w.trace ++ [Action.mipi_dsi_attach] ++ exec ++
              [Action.mipi_dsi_dcs_exit_sleep_mode, Action.mdelay 125,
               Action.mipi_dsi_dcs_set_display_on, Action.mdelay 125])) := by
  refine ⟨?_, ?_⟩
  · rw [enable_backlight_eq, enable_backlight_eq, ← hattach, ← hsleep, ← hdisplay]
    by_cases ha : host.attach_ret < 0
    · simp only [if_pos ha]
    · by_cases hs : host.exit_sleep_ret ≠ 0
      · simp only [if_neg ha, if_pos hs]
      · by_cases hd : host.display_on_ret ≠ 0
        · simp only [if_neg ha, if_neg hs, if_pos hd]
        · simp only [if_neg ha, if_neg hs, if_neg hd]
  · intro ha
    obtain ⟨exec, hexec, -⟩ :=
      init_sequence_trace_shape table dev (w.emit Action.mipi_dsi_attach)
    have hexec2 : (ili9881c_init_sequence table dev (w.emit Action.mipi_dsi_attach)).trace
        = w.trace ++ [Action.mipi_dsi_attach] ++ exec := by
      simpa [World.emit] using hexec
    have htr : ∀ (x : World) (a : Action), (x.emit a).trace = x.trace ++ [a] :=
      fun _ _ => rfl
    refine ⟨exec, hexec2, ?_, ?_⟩
    · rw [enable_backlight_eq, if_neg (not_lt.mpr ha)]
      by_cases hs : host.exit_sleep_ret = 0
      · by_cases hd : host.display_on_ret = 0
        · simp [hs, hd, htr, hexec2]
        · simp [hs, hd, htr, hexec2]
      · simp [hs, htr, hexec2]
    · intro hs hd
      rw [enable_backlight_eq, if_neg (not_lt.mpr ha)]
      simp [hs, hd, htr, hexec2]

/-- Two runs on the shipped table with the same attach, exit-sleep and
display-on statuses, the transport rejecting every write in the first and
accepting every write in the second: same result, 0. -/
theorem enable_backlight_ignores_executor_result_witness :
    (Host.ok.attach_ret = Host.ok2.attach_ret ∧
     Host.ok.exit_sleep_ret = Host.ok2.exit_sleep_ret ∧
     Host.ok.display_on_ret = Host.ok2.display_on_ret) ∧
    (World.const (-5) 0).write_ret 0 ≠ (World.const 0 0).write_ret 0 ∧
    (ili9881c_panel_enable_backlight ili9881c_init_data_2 Host.ok udevice.zero
        (World.const (-5) 0)).1
      = (ili9881c_panel_enable_backlight ili9881c_init_data_2 Host.ok2 udevice.zero
        (World.const 0 0)).1 ∧
    (ili9881c_panel_enable_backlight ili9881c_init_data_2 Host.ok udevice.zero
        (World.const (-5) 0)).1 = 0 :=
  ⟨by decide, by decide,
   (enable_backlight_ignores_executor_result ili9881c_init_data_2 Host.ok Host.ok2
      udevice.zero udevice.zero (World.const (-5) 0) (World.const 0 0) rfl rfl rfl).1,
   match (enable_backlight_ignores_executor_result ili9881c_init_data_2 Host.ok Host.ok2
      udevice.zero udevice.zero (World.const (-5) 0) (World.const 0 0) rfl rfl rfl).2
      (by decide) with
    | ⟨_, _, _, h⟩ => (h rfl rfl).1⟩

/-! ## The probe callback -/

/-- The calls made by the three reset pulses and the settle delay. -/
theorem probe_reset_loop_three (priv : ili9881c_panel_priv) (w : World) :
    (mdelay 1000 (probe_reset_loop priv 3 w)).trace = w.trace ++ spec_reset_sequence := by
  simp [probe_reset_loop, dm_gpio_set_value, mdelay, World.emit, spec_reset_sequence]

/-- The probe callback unfolded. -/
theorem probe_eq (host : Host) (dev : udevice) (w : World) :
    ili9881c_panel_probe host dev w
    = if host.CONFIG_DM_REGULATOR = true ∧ dev.priv.reg ≠ none then
        if host.regulator_ret ≠ 0 then
          (host.regulator_ret, dev, w.emit (Action.regulator_set_enable true))
        else probe_reset_and_configure dev (w.emit (Action.regulator_set_enable true))
      else probe_reset_and_configure dev w := by
  simp only [ili9881c_panel_probe, regulator_set_enable]

/-- C6. When `ili9881c_panel_probe` gets past the regulator step, its calls
after that step are exactly: three times (reset line driven false, 20 ms,
reset line driven true, 100 ms), then one delay of 1000 ms; that is 6 GPIO
writes and 7 delays adding up to 1360 ms. This holds for every reset
descriptor in the private data (resolved or not) and every status returned by
the GPIO writes, and the command table is not an input of the callback. -/
theorem probe_reset_sequence_fixed (host : Host) (dev : udevice) (w : World)
    (h : ¬ (host.CONFIG_DM_REGULATOR = true ∧ dev.priv.reg ≠ none) ∨
         host.regulator_ret = 0) :
    (ili9881c_panel_probe host dev w).2.2.trace
      = w.trace ++
        (if host.CONFIG_DM_REGULATOR = true ∧ dev.priv.reg ≠ none
          then [Action.regulator_set_enable true] else []) ++
        [Action.dm_gpio_set_value false, Action.mdelay 20,
         Action.dm_gpio_set_value true, Action.mdelay 100,
         Action.dm_gpio_set_value false, Action.mdelay 20,
         Action.dm_gpio_set_value true, Action.mdelay 100,
         Action.dm_gpio_set_value false, Action.mdelay 20,
         Action.dm_gpio_set_value true, Action.mdelay 100,
         Action.mdelay 1000] ∧
    ((ili9881c_panel_probe host dev w).2.2.trace.drop w.trace.length).filter
        (fun a => a.is_gpio_write || a.is_delay) = spec_reset_sequence ∧
    (spec_reset_sequence.filter Action.is_gpio_write).length = 6 ∧
    (spec_reset_sequence.filter Action.is_delay).length = 7 ∧
    (spec_reset_sequence.map Action.delay_ms).sum = 1360 := by
  have hseq : spec_reset_sequence.filter (fun a => a.is_gpio_write || a.is_delay)
      = spec_reset_sequence := by decide
  have hreg : [Action.regulator_set_enable true].filter
      (fun a => a.is_gpio_write || a.is_delay) = [] := by decide
  rw [probe_eq]
  by_cases hc : host.CONFIG_DM_REGULATOR = true ∧ dev.priv.reg ≠ none
  · have hr : host.regulator_ret = 0 := h.resolve_left (not_not.mpr hc)
    rw [if_pos hc, if_neg (not_not.mpr hr), if_pos hc]
    have ht : (probe_reset_and_configure dev
        (w.emit (Action.regulator_set_enable true))).2.2.trace
        = w.trace ++ [Action.regulator_set_enable true] ++ spec_reset_sequence :=
      probe_reset_loop_three dev.priv (w.emit (Action.regulator_set_enable true))
    refine ⟨by rw [ht]; rfl, ?_, by decide, by decide, by decide⟩
    rw [ht, List.append_assoc, List.drop_left, List.filter_append, hreg, hseq]
    rfl
  · rw [if_neg hc, if_neg hc]
    have ht : (probe_reset_and_configure dev w).2.2.trace
        = w.trace ++ spec_reset_sequence := probe_reset_loop_three dev.priv w
    refine ⟨by rw [ht]; simp [spec_reset_sequence], ?_, by decide, by decide, by decide⟩
    rw [ht, List.drop_left, hseq]

/-- A probe with a regulator that enables, an unresolved reset descriptor
and GPIO writes that all return -2. -/
theorem probe_reset_sequence_fixed_witness :
    (¬ (Host.ok.CONFIG_DM_REGULATOR = true ∧ udevice.with_regulator.priv.reg ≠ none) ∨
         Host.ok.regulator_ret = 0) ∧
    (ili9881c_panel_probe Host.ok udevice.with_regulator (World.const 0 (-2))).2.2.trace
      = [Action.regulator_set_enable true,
         Action.dm_gpio_set_value false, Action.mdelay 20,
         Action.dm_gpio_set_value true, Action.mdelay 100,
         Action.dm_gpio_set_value false, Action.mdelay 20,
         Action.dm_gpio_set_value true, Action.mdelay 100,
         Action.dm_gpio_set_value false, Action.mdelay 20,
         Action.dm_gpio_set_value true, Action.mdelay 100,
         Action.mdelay 1000] :=
  ⟨by decide,
   (probe_reset_sequence_fixed Host.ok udevice.with_regulator (World.const 0 (-2))
      (by decide)).1⟩

/-- C7. The result of `ili9881c_panel_probe` is decided by the regulator step
alone. If a regulator is resolved and enabling it (regulator support being
compiled in) returns a non-zero status, the callback returns that status, its
only call is the regulator enable, and the device data, the platform data in
particular, is unchanged. In every other case it returns 0 and leaves lanes = 2,
format = MIPI_DSI_FMT_RGB888 and mode_flags = MIPI_DSI_MODE_VIDEO |
MIPI_DSI_MODE_VIDEO_SYNC_PULSE | MIPI_DSI_MODE_LPM in the platform data,
whatever was there before and whatever the GPIO writes returned. -/
theorem probe_result_decided_by_regulator (host : Host) (dev : udevice) (w : World) :
    ((host.CONFIG_DM_REGULATOR = true ∧ dev.priv.reg ≠ none) ∧ host.regulator_ret ≠ 0 →
      (ili9881c_panel_probe host dev w).1 = host.regulator_ret ∧
      (ili9881c_panel_probe host dev w).2.2.trace
        = w.trace ++ [Action.regulator_set_enable true] ∧
      (ili9881c_panel_probe host dev w).2.1 = dev) ∧
    (¬ ((host.CONFIG_DM_REGULATOR = true ∧ dev.priv.reg ≠ none) ∧ host.regulator_ret ≠ 0) →
      (ili9881c_panel_probe host dev w).1 = 0 ∧
      (ili9881c_panel_probe host dev w).2.1.plat.lanes = 2 ∧
      (ili9881c_panel_probe host dev w).2.1.plat.format = MIPI_DSI_FMT_RGB888 ∧
      (ili9881c_panel_probe host dev w).2.1.plat.mode_flags
        = MIPI_DSI_MODE_VIDEO ||| MIPI_DSI_MODE_VIDEO_SYNC_PULSE ||| MIPI_DSI_MODE_LPM ∧
      (ili9881c_panel_probe host dev w).2.1.plat.device = dev.plat.device ∧
      (ili9881c_panel_probe host dev w).2.1.priv = dev.priv) := by
  rw [probe_eq]
  by_cases hc : host.CONFIG_DM_REGULATOR = true ∧ dev.priv.reg ≠ none
  · by_cases hr : host.regulator_ret ≠ 0
    · rw [if_pos hc, if_pos hr]
      exact ⟨fun _ => ⟨rfl, rfl, rfl⟩, fun hn => absurd ⟨hc, hr⟩ hn⟩
    · rw [if_pos hc, if_neg hr]
      exact ⟨fun hp => absurd hp.2 hr, fun _ => ⟨rfl, rfl, rfl, rfl, rfl, rfl⟩⟩
  · rw [if_neg hc]
    exact ⟨fun hp => absurd hp.1 hc, fun _ => ⟨rfl, rfl, rfl, rfl, rfl, rfl⟩⟩

/-- A probe whose regulator enable fails with -22, and a probe with no
regulator whose GPIO writes all return -2. -/
theorem probe_result_decided_by_regulator_witness :
    ((Host.regulator_fails.CONFIG_DM_REGULATOR = true ∧
       udevice.with_regulator.priv.reg ≠ none) ∧ Host.regulator_fails.regulator_ret ≠ 0) ∧
    ((ili9881c_panel_probe Host.regulator_fails udevice.with_regulator
        (World.const 0 0)).1 = -22 ∧
     (ili9881c_panel_probe Host.regulator_fails udevice.with_regulator
        (World.const 0 0)).2.2.trace = [Action.regulator_set_enable true] ∧
     (ili9881c_panel_probe Host.regulator_fails udevice.with_regulator
        (World.const 0 0)).2.1 = udevice.with_regulator) ∧
    ¬ ((Host.ok.CONFIG_DM_REGULATOR = true ∧ udevice.zero.priv.reg ≠ none) ∧
        Host.ok.regulator_ret ≠ 0) ∧
    (ili9881c_panel_probe Host.ok udevice.zero (World.const 0 (-2))).1 = 0 ∧
    (ili9881c_panel_probe Host.ok udevice.zero (World.const 0 (-2))).2.1.plat.lanes = 2 :=
  ⟨by decide,
   (probe_result_decided_by_regulator Host.regulator_fails udevice.with_regulator
      (World.const 0 0)).1 (by decide),
   by decide,
   ((probe_result_decided_by_regulator Host.ok udevice.zero
      (World.const 0 (-2))).2 (by decide)).1,
   ((probe_result_decided_by_regulator Host.ok udevice.zero
      (World.const 0 (-2))).2 (by decide)).2.1⟩

/-! ## The timing accessor -/

/-- C8. For every device state, every previous content of the buffer and
every world, `ili9881c_panel_get_display_timing` returns 0, leaves the world
(so the trace) as it was, and leaves in the buffer the record with pixelclock
54000000, hactive 720, hfront_porch 20, hback_porch 20, hsync_len 2, vactive
1280, vfront_porch 15, vback_porch 10, vsync_len 2 (min = typ = max in each)
and flags 0; a second call, on any device and on the buffer the first call
left, yields the same record. -/
theorem get_display_timing_constant (dev dev2 : udevice) (timings : display_timing)
    (w : World) :
    (ili9881c_panel_get_display_timing dev timings w).1 = 0 ∧
    (ili9881c_panel_get_display_timing dev timings w).2.1
      = { pixelclock := { min := 54000000, typ := 54000000, max := 54000000 },
          hactive := { min := 720, typ := 720, max := 720 },
          hfront_porch := { min := 20, typ := 20, max := 20 },
          hback_porch := { min := 20, typ := 20, max := 20 },
          hsync_len := { min := 2, typ := 2, max := 2 },
          vactive := { min := 1280, typ := 1280, max := 1280 },
          vfront_porch := { min := 15, typ := 15, max := 15 },
          vback_porch := { min := 10, typ := 10, max := 10 },
          vsync_len := { min := 2, typ := 2, max := 2 },
          flags := 0 } ∧
    (ili9881c_panel_get_display_timing dev timings w).2.2 = w ∧
    (ili9881c_panel_get_display_timing dev timings w).2.2.trace = w.trace ∧
    (ili9881c_panel_get_display_timing dev2
        (ili9881c_panel_get_display_timing dev timings w).2.1
        (ili9881c_panel_get_display_timing dev timings w).2.2).2.1
      = (ili9881c_panel_get_display_timing dev timings w).2.1 ∧
    (ili9881c_panel_get_display_timing dev2
        (ili9881c_panel_get_display_timing dev timings w).2.1
        (ili9881c_panel_get_display_timing dev timings w).2.2).1 = 0 :=
  ⟨rfl, rfl, rfl, rfl, rfl, rfl⟩

/-! ## The hardware description parser -/

/-- The parser unfolded, with regulator support compiled in. -/
theorem ofdata_eq (host : Host) (dev : udevice) (w : World)
    (hcfg : host.CONFIG_DM_REGULATOR = true) :
    ili9881c_panel_ofdata_to_platdata host dev w
    = if host.supply_regulator.1 ≠ 0 ∧ host.supply_regulator.1 ≠ -ENOENT then
        (host.supply_regulator.1,
         { dev with priv := { dev.priv with reg := host.supply_regulator.2 } },
         w.emit Action.device_get_supply_regulator)
      else if host.reset_gpio.1 ≠ 0 ∧ host.reset_gpio.1 ≠ -ENOENT then
        (host.reset_gpio.1,
         { dev with priv := { dev.priv with reg := host.supply_regulator.2,
                                            reset := host.reset_gpio.2 } },
         (w.emit Action.device_get_supply_regulator).emit Action.gpio_request_by_name)
      else
        (if host.backlight.1 ≠ 0 then host.backlight.1 else 0,
         { dev with priv := { reg := host.supply_regulator.2,
                              reset := host.reset_gpio.2,
                              backlight := host.backlight.2 } },
         ((w.emit Action.device_get_supply_regulator).emit
            Action.gpio_request_by_name).emit Action.uclass_get_device_by_phandle) := by
  simp only [ili9881c_panel_ofdata_to_platdata, ofdata_reset_gpio, ofdata_backlight,
    device_get_supply_regulator, gpio_request_by_name, uclass_get_device_by_phandle, hcfg,
    if_true]
  by_cases h1 : host.supply_regulator.1 ≠ 0 ∧ host.supply_regulator.1 ≠ -ENOENT
  · simp only [if_pos h1]
  · simp only [if_neg h1]
    by_cases h2 : host.reset_gpio.1 ≠ 0
    · by_cases h3 : host.reset_gpio.1 ≠ -ENOENT
      · simp only [if_pos h2, if_pos h3, if_pos (And.intro h2 h3)]
      · have h4 : ¬ (host.reset_gpio.1 ≠ 0 ∧ host.reset_gpio.1 ≠ -ENOENT) := fun h => h3 h.2
        simp only [if_pos h2, if_neg h3, if_neg h4]
        by_cases h5 : host.backlight.1 ≠ 0
        · rw [if_pos h5, if_pos h5]
        · rw [if_neg h5, if_neg h5]
    · have h4 : ¬ (host.reset_gpio.1 ≠ 0 ∧ host.reset_gpio.1 ≠ -ENOENT) := fun h => h2 h.1
      simp only [if_neg h2, if_neg h4]
      by_cases h5 : host.backlight.1 ≠ 0
      · rw [if_pos h5, if_pos h5]
      · rw [if_neg h5, if_neg h5]

/-- C9. With regulator support compiled in, and `r_reg`, `r_gpio`, `r_bl` the
statuses of the regulator, reset-GPIO and backlight lookups,
`ili9881c_panel_ofdata_to_platdata` returns `r_reg` if it is neither 0 nor
-ENOENT, and then makes no other lookup; otherwise `r_gpio` if it is neither 0
nor -ENOENT, and then does not make the backlight lookup; otherwise `r_bl` if
it is non-zero; otherwise 0. So with both optional lookups at -ENOENT and the
backlight lookup at 0 it returns 0; a backlight lookup that would fail makes
the result non-zero in every case, and whenever that lookup is made and fails
the result is its status. -/
theorem ofdata_result (host : Host) (dev : udevice) (w : World)
    (hcfg : host.CONFIG_DM_REGULATOR = true) :
    (ili9881c_panel_ofdata_to_platdata host dev w).1
      = (if host.supply_regulator.1 ≠ 0 ∧ host.supply_regulator.1 ≠ -ENOENT then
          host.supply_regulator.1
        else if host.reset_gpio.1 ≠ 0 ∧ host.reset_gpio.1 ≠ -ENOENT then
          host.reset_gpio.1
        else if host.backlight.1 ≠ 0 then host.backlight.1
        else 0) ∧
    (ili9881c_panel_ofdata_to_platdata host dev w).2.2.trace
      = w.trace ++
        (if host.supply_regulator.1 ≠ 0 ∧ host.supply_regulator.1 ≠ -ENOENT then
          [Action.device_get_supply_regulator]
        else if host.reset_gpio.1 ≠ 0 ∧ host.reset_gpio.1 ≠ -ENOENT then
          [Action.device_get_supply_regulator, Action.gpio_request_by_name]
        else
          [Action.device_get_supply_regulator, Action.gpio_request_by_name,
           Action.uclass_get_device_by_phandle]) ∧
    (host.supply_regulator.1 = -ENOENT → host.reset_gpio.1 = -ENOENT →
      host.backlight.1 = 0 → (ili9881c_panel_ofdata_to_platdata host dev w).1 = 0) ∧
    (host.backlight.1 ≠ 0 → (ili9881c_panel_ofdata_to_platdata host dev w).1 ≠ 0) ∧
    (host.backlight.1 ≠ 0 →
      Action.uclass_get_device_by_phandle ∈
        (ili9881c_panel_ofdata_to_platdata host dev w).2.2.trace.drop w.trace.length →
      (ili9881c_panel_ofdata_to_platdata host dev w).1 = host.backlight.1) := by
  rw [ofdata_eq host dev w hcfg]
  have htr : ∀ (x : World) (a : Action), (x.emit a).trace = x.trace ++ [a] :=
    fun _ _ => rfl
  by_cases h1 : host.supply_regulator.1 ≠ 0 ∧ host.supply_regulator.1 ≠ -ENOENT
  · simp only [if_pos h1, htr, List.drop_left]
    refine ⟨trivial, trivial, ?_, fun _ => h1.1, ?_⟩
    · intro h; exact absurd h h1.2
    · intro _ hm; simp at hm
  · by_cases h2 : host.reset_gpio.1 ≠ 0 ∧ host.reset_gpio.1 ≠ -ENOENT
    · simp only [if_neg h1, if_pos h2, htr, List.append_assoc, List.drop_left,
        List.singleton_append]
      refine ⟨trivial, trivial, ?_, fun _ => h2.1, ?_⟩
      · intro _ h; exact absurd h h2.2
      · intro _ hm; simp at hm
    · simp only [if_neg h1, if_neg h2, htr, List.append_assoc, List.drop_left,
        List.singleton_append]
      refine ⟨trivial, rfl, ?_, ?_, ?_⟩
      · intro _ _ h; simp [h]
      · intro h; simp [h]
      · intro h _; simp [h]

/-- A hardware description with no regulator, no reset GPIO and a valid
backlight. -/
theorem ofdata_result_witness :
    Host.backlight_only.CONFIG_DM_REGULATOR = true ∧
    (Host.backlight_only.supply_regulator.1 = -ENOENT ∧
     Host.backlight_only.reset_gpio.1 = -ENOENT ∧
     Host.backlight_only.backlight.1 = 0) ∧
    (ili9881c_panel_ofdata_to_platdata Host.backlight_only udevice.zero
        (World.const 0 0)).1 = 0 :=
  ⟨rfl, by decide,
   (ofdata_result Host.backlight_only udevice.zero (World.const 0 0) rfl).2.2.1
     (by decide) (by decide) (by decide)⟩

end Ili9881c
